import Mathlib

/-!
Verification of the Items CRUD service (`src/main.rs`).

The service wraps a single relational table `items(id, name, description)`.
We embed the database state as a list of rows plus the sequence counter that
Postgres uses to generate the next `id`.  Each repository method of
`AppState` executes exactly one SQL statement; we embed that statement's
semantics as a pure function `Db → Db × result`.  Each HTTP handler is
embedded as a function from the repository's `Result` (here `Except`) to the
response it produces; a Rust `.unwrap()` on an `Err` value is the
`panicked` outcome.
-/

namespace ItemsApi

/-- The persisted entity: `struct Item { id: i32, name: String, description: String }`. -/
structure Item where
  id : Int
  name : String
  description : String
deriving Repr, DecidableEq

/-- Database state: the rows of the `items` table together with the value the
`id` sequence will hand out next (`id` is an auto-generated primary key). -/
structure Db where
  rows : List Item
  nextId : Int
deriving Repr, DecidableEq

/-- A freshly initialised database: no rows, the sequence starts at 1. -/
def Db.empty : Db := ⟨[], 1⟩

/-- Well-formedness of the database: every existing row's id is below the
sequence counter, so the next generated id is fresh.  This is exactly the
invariant an auto-increment primary-key column maintains. -/
def Db.WF (db : Db) : Prop := ∀ r ∈ db.rows, r.id < db.nextId

/-- An error surfaced by the database driver (connection loss, constraint
violation, ...).  Its content is irrelevant to the control flow. -/
inductive DbError where
  | err
deriving Repr, DecidableEq

namespace AppState

/-- `INSERT INTO items (name, description) VALUES ($1,$2) RETURNING id, name, description`
(`AppState::create_item`): a new row with a database-generated id is added and
returned. -/
def create_item (db : Db) (name description : String) : Db × Item :=
  let item : Item := { id := db.nextId, name := name, description := description }
  (⟨db.rows ++ [item], db.nextId + 1⟩, item)

/-- `SELECT * FROM items` (`AppState::get_items`): returns all rows. -/
def get_items (db : Db) : Db × List Item :=
  (db, db.rows)

/-- `SELECT * FROM items WHERE id = $1` with `fetch_optional`
(`AppState::get_item`): the first matching row, or `none` when no row
matches — absence is a value, not a driver error. -/
def get_item (db : Db) (id : Int) : Db × Option Item :=
  (db, db.rows.find? (fun r => r.id == id))

/-- `UPDATE items SET name = $1, description = $2 WHERE id = $3 RETURNING ...`
with `fetch_optional` (`AppState::update_item`): every row whose id matches
gets the new name/description (its id is untouched); the returned value is
the first updated row, or `none` when zero rows matched. -/
def update_item (db : Db) (id : Int) (name description : String) :
    Db × Option Item :=
  let rows := db.rows.map (fun r =>
    if r.id == id then { r with name := name, description := description } else r)
  let ret := (db.rows.find? (fun r => r.id == id)).map (fun r =>
    { r with name := name, description := description })
  (⟨rows, db.nextId⟩, ret)

/-- `DELETE FROM items WHERE id = $1` (`AppState::delete_item`): removes the
matching rows and reports `rows_affected() > 0`. -/
def delete_item (db : Db) (id : Int) : Db × Bool :=
  let affected := db.rows.countP (fun r => r.id == id)
  (⟨db.rows.filter (fun r => !(r.id == id)), db.nextId⟩, decide (0 < affected))

/-- `DELETE FROM items` (`AppState::delete_all_items`): removes every row and
reports `rows_affected()`. -/
def delete_all_items (db : Db) : Db × Nat :=
  (⟨[], db.nextId⟩, db.rows.length)

end AppState

/-- JSON values, as produced by the serde `Serialize` derives. -/
inductive Json where
  | num (n : Int)
  | str (s : String)
  | arr (elems : List Json)
  | obj (fields : List (String × Json))
deriving Repr

/-- serde serialization of `Item` (`#[derive(Serialize)]`, no rename
attributes: the JSON keys are the literal field names). -/
def Item.toJson (it : Item) : Json :=
  .obj [("id", .num it.id), ("name", .str it.name), ("description", .str it.description)]

/-- `struct DeletedItemsResponse { deleted_count: u64 }`. -/
structure DeletedItemsResponse where
  deleted_count : Nat
deriving Repr, DecidableEq

/-- serde serialization of `DeletedItemsResponse` (`#[derive(Serialize)]`, no
rename attribute: the JSON key is the literal field name `deleted_count`). -/
def DeletedItemsResponse.toJson (r : DeletedItemsResponse) : Json :=
  .obj [("deleted_count", .num r.deleted_count)]

/-- What a handler does with a request: either produce an HTTP response
(status code and optional JSON body), or panic (`.unwrap()` on an `Err`),
which aborts the handling task without producing a response. -/
inductive HandlerResult where
  | response (status : Nat) (body : Option Json)
  | panicked
deriving Repr

/-- The status code of a handler outcome; `none` when the handler panicked
and no response was sent. -/
def HandlerResult.status : HandlerResult → Option Nat
  | .response s _ => some s
  | .panicked => none

/-- `POST /items` handler (`create_item`): `.unwrap()` then `201` with the
item. -/
def create_item_handler (r : Except DbError Item) : HandlerResult :=
  match r with
  | .ok item => .response 201 (some item.toJson)
  | .error _ => .panicked

/-- `GET /items` handler (`get_items`): `.unwrap()` then `200` with the
array. -/
def get_items_handler (r : Except DbError (List Item)) : HandlerResult :=
  match r with
  | .ok items => .response 200 (some (.arr (items.map Item.toJson)))
  | .error _ => .panicked

/-- `GET /items/{id}` handler (`get_item`): `.unwrap()` first, then `Some`
maps to `200` and `None` to `404`. -/
def get_item_handler (r : Except DbError (Option Item)) : HandlerResult :=
  match r with
  | .ok (some item) => .response 200 (some item.toJson)
  | .ok none => .response 404 none
  | .error _ => .panicked

/-- `PUT /items/{id}` handler (`update_item`): `Ok(Some)` maps to `200`,
`Ok(None)` to `404`, `Err` to `500`. -/
def update_item_handler (r : Except DbError (Option Item)) : HandlerResult :=
  match r with
  | .ok (some item) => .response 200 (some item.toJson)
  | .ok none => .response 404 none
  | .error _ => .response 500 none

/-- `DELETE /items/{id}` handler (`delete_item`): `Ok(true)` maps to `204`,
`Ok(false)` to `404`, `Err` to `500`. -/
def delete_item_handler (r : Except DbError Bool) : HandlerResult :=
  match r with
  | .ok true => .response 204 none
  | .ok false => .response 404 none
  | .error _ => .response 500 none

/-- `DELETE /items` handler (`delete_all_items`): `Ok(n)` maps to `200` with
the serialized `DeletedItemsResponse`, `Err` to `500`. -/
def delete_all_items_handler (r : Except DbError Nat) : HandlerResult :=
  match r with
  | .ok n => .response 200 (some (DeletedItemsResponse.toJson ⟨n⟩))
  | .error _ => .response 500 none

/- ## Helper lemmas -/

/-- A row whose id differs from every row of `rows` is found as itself when
appended. -/
theorem find_appended_fresh (rows : List Item) (item : Item)
    (h : ∀ r ∈ rows, r.id ≠ item.id) :
    (rows ++ [item]).find? (fun r => r.id == item.id) = some item := by
  induction rows with
  | nil => simp [List.find?]
  | cons a tl ih =>
    have ha : (a.id == item.id) = false := by
      simp [h a (by simp)]
    simp only [List.cons_append, List.find?, ha]
    exact ih (fun r hr => h r (by simp [hr]))

/- ## Claim theorems -/

/-- C9: `get_item` and `get_items` execute `SELECT` statements only: the
database state after either call is the state before it. -/
theorem reads_leave_store_unchanged (db : Db) (id : Int) :
    (AppState.get_item db id).1 = db ∧ (AppState.get_items db).1 = db :=
  ⟨rfl, rfl⟩

/-- C6: `delete_all_items` on a store with `N` rows reports the count `N`,
a `get_items` immediately afterwards returns the empty sequence, and
`get_items` on the empty store is a success with the empty sequence. -/
theorem delete_all_count_then_empty (db : Db) :
    (AppState.delete_all_items db).2 = db.rows.length ∧
    (AppState.get_items (AppState.delete_all_items db).1).2 = [] ∧
    (AppState.get_items Db.empty).2 = [] :=
  ⟨rfl, rfl, rfl⟩

/-- C5: on the create-item and list-items routes a database error is
`.unwrap()`ed: the handling task panics and no HTTP response (of any status)
is produced. -/
theorem create_list_db_error_panics (e : DbError) :
    create_item_handler (Except.error e) = HandlerResult.panicked ∧
    get_items_handler (Except.error e) = HandlerResult.panicked ∧
    (create_item_handler (Except.error e)).status = none ∧
    (get_items_handler (Except.error e)).status = none :=
  ⟨rfl, rfl, rfl, rfl⟩

/-- C1: starting from any well-formed store, `create_item(name, description)`
followed by `get_item` on the returned item's id yields exactly the created
item, whose name and description are the inputs (and whose id is the freshly
generated one). -/
theorem create_then_get (db : Db) (hwf : db.WF) (name description : String) :
    (AppState.get_item (AppState.create_item db name description).1
        (AppState.create_item db name description).2.id).2 =
      some (AppState.create_item db name description).2 ∧
    (AppState.create_item db name description).2.name = name ∧
    (AppState.create_item db name description).2.description = description := by
  refine ⟨?_, rfl, rfl⟩
  show (db.rows ++ [({ id := db.nextId, name := name, description := description } : Item)]).find?
      (fun r => r.id == db.nextId) = _
  apply find_appended_fresh db.rows
    ({ id := db.nextId, name := name, description := description } : Item)
  intro r hr
  exact ne_of_lt (hwf r hr)

/-- C1 witness: on the empty store, creating ("pen", "blue") and reading the
returned id back gives that very item. -/
theorem create_then_get_witness :
    Db.WF Db.empty ∧
    ((AppState.get_item (AppState.create_item Db.empty "pen" "blue").1
        (AppState.create_item Db.empty "pen" "blue").2.id).2 =
      some (AppState.create_item Db.empty "pen" "blue").2 ∧
    (AppState.create_item Db.empty "pen" "blue").2.name = "pen" ∧
    (AppState.create_item Db.empty "pen" "blue").2.description = "blue") :=
  ⟨by simp [Db.WF, Db.empty],
   create_then_get Db.empty (by simp [Db.WF, Db.empty]) "pen" "blue"⟩

/-- C4: for an id matching no row, `get_item` returns `none`, `update_item`
returns `none`, and `delete_item` returns `false` — the not-found outcome,
not a database error. -/
theorem absent_id_not_found (db : Db) (id : Int) (n d : String)
    (h : ∀ r ∈ db.rows, r.id ≠ id) :
    (AppState.get_item db id).2 = none ∧
    (AppState.update_item db id n d).2 = none ∧
    (AppState.delete_item db id).2 = false := by
  have hfind : db.rows.find? (fun r => r.id == id) = none := by
    apply List.find?_eq_none.mpr
    intro r hr
    simp [h r hr]
  have hcount : db.rows.countP (fun r => r.id == id) = 0 := by
    apply List.countP_eq_zero.mpr
    intro r hr
    simp [h r hr]
  refine ⟨hfind, ?_, ?_⟩
  · simp [AppState.update_item, hfind]
  · simp [AppState.delete_item, hcount]

/-- C4 witness: id 7 is absent from a store holding only id 1; all three
by-id operations report not-found there. -/
theorem absent_id_not_found_witness :
    (∀ r ∈ (⟨[⟨1, "pen", "blue"⟩], 2⟩ : Db).rows, r.id ≠ 7) ∧
    ((AppState.get_item ⟨[⟨1, "pen", "blue"⟩], 2⟩ 7).2 = none ∧
    (AppState.update_item ⟨[⟨1, "pen", "blue"⟩], 2⟩ 7 "x" "y").2 = none ∧
    (AppState.delete_item ⟨[⟨1, "pen", "blue"⟩], 2⟩ 7).2 = false) :=
  ⟨by decide, absent_id_not_found ⟨[⟨1, "pen", "blue"⟩], 2⟩ 7 "x" "y" (by decide)⟩

/-- C7: when some row carries the targeted id, `update_item` preserves the
number of rows and the id sequence; position by position, a row whose id
matches keeps its id and gets exactly the new name/description, and a row
whose id differs is returned unchanged. -/
theorem update_frame (db : Db) (id : Int) (n d : String)
    (_hpresent : ∃ r ∈ db.rows, r.id = id) :
    (AppState.update_item db id n d).1.rows.length = db.rows.length ∧
    (AppState.update_item db id n d).1.nextId = db.nextId ∧
    ∀ (i : Nat) (r : Item), db.rows[i]? = some r →
      (r.id = id →
        (AppState.update_item db id n d).1.rows[i]? =
          some { id := r.id, name := n, description := d }) ∧
      (r.id ≠ id → (AppState.update_item db id n d).1.rows[i]? = some r) := by
  refine ⟨by simp [AppState.update_item], rfl, ?_⟩
  intro i r hr
  constructor
  · intro heq
    simp [AppState.update_item, hr, heq]
  · intro hne
    simp [AppState.update_item, hr, hne]

/-- C7 witness: updating id 1 in a two-row store rewrites row 0's
name/description, keeps its id, and leaves row 1 byte-for-byte intact. -/
theorem update_frame_witness :
    (AppState.update_item ⟨[⟨1, "a", "b"⟩, ⟨2, "c", "d"⟩], 3⟩ 1 "x" "y").1.rows[0]? =
      some ⟨1, "x", "y"⟩ ∧
    (AppState.update_item ⟨[⟨1, "a", "b"⟩, ⟨2, "c", "d"⟩], 3⟩ 1 "x" "y").1.rows[1]? =
      some ⟨2, "c", "d"⟩ :=
  ⟨((update_frame ⟨[⟨1, "a", "b"⟩, ⟨2, "c", "d"⟩], 3⟩ 1 "x" "y"
      ⟨⟨1, "a", "b"⟩, by simp, rfl⟩).2.2 0 ⟨1, "a", "b"⟩ rfl).1 rfl,
   ((update_frame ⟨[⟨1, "a", "b"⟩, ⟨2, "c", "d"⟩], 3⟩ 1 "x" "y"
      ⟨⟨1, "a", "b"⟩, by simp, rfl⟩).2.2 1 ⟨2, "c", "d"⟩ rfl).2 (by decide)⟩

/-- C8: deleting an id present in the store reports `true`; repeating the
same delete immediately afterwards reports `false`. -/
theorem delete_then_delete_again (db : Db) (id : Int)
    (h : ∃ r ∈ db.rows, r.id = id) :
    (AppState.delete_item db id).2 = true ∧
    (AppState.delete_item (AppState.delete_item db id).1 id).2 = false := by
  obtain ⟨r, hr, hid⟩ := h
  constructor
  · have hpos : 0 < db.rows.countP (fun r => r.id == id) :=
      List.countP_pos_iff.mpr ⟨r, hr, by simp [hid]⟩
    simp [AppState.delete_item, hpos]
  · have hcount :
        ((db.rows.filter (fun r => !(r.id == id))).countP (fun r => r.id == id)) = 0 := by
      apply List.countP_eq_zero.mpr
      intro x hx
      have hmem := List.mem_filter.mp hx
      simpa using hmem.2
    simp [AppState.delete_item, hcount]

/-- C8 witness: deleting id 1 from a store holding it returns `true`, then
`false` on the immediate retry. -/
theorem delete_then_delete_again_witness :
    (AppState.delete_item ⟨[⟨1, "pen", "blue"⟩], 2⟩ 1).2 = true ∧
    (AppState.delete_item (AppState.delete_item ⟨[⟨1, "pen", "blue"⟩], 2⟩ 1).1 1).2 = false :=
  delete_then_delete_again ⟨[⟨1, "pen", "blue"⟩], 2⟩ 1 ⟨⟨1, "pen", "blue"⟩, by simp, rfl⟩

/-- C10: a by-id write that matched zero rows leaves the store untouched:
`update_item` returning `none`, or `delete_item` returning `false`, implies
the resulting store equals the original. -/
theorem notfound_write_no_effect (db : Db) (id : Int) (n d : String) :
    ((AppState.update_item db id n d).2 = none →
      (AppState.update_item db id n d).1 = db) ∧
    ((AppState.delete_item db id).2 = false →
      (AppState.delete_item db id).1 = db) := by
  constructor
  · intro h
    have hfind : db.rows.find? (fun r => r.id == id) = none := by
      cases hF : db.rows.find? (fun r => r.id == id) with
      | none => rfl
      | some x => simp [AppState.update_item, hF] at h
    have hall := List.find?_eq_none.mp hfind
    have hmap : db.rows.map (fun r =>
        if r.id == id then { r with name := n, description := d } else r) = db.rows := by
      have h1 : db.rows.map (fun r =>
          if r.id == id then { r with name := n, description := d } else r) =
            db.rows.map (fun r => r) :=
        List.map_congr_left (fun r hr => by simp [Bool.of_not_eq_true (hall r hr)])
      simpa using h1
    calc (AppState.update_item db id n d).1
        = ⟨db.rows.map (fun r =>
            if r.id == id then { r with name := n, description := d } else r),
           db.nextId⟩ := rfl
      _ = ⟨db.rows, db.nextId⟩ := by rw [hmap]
      _ = db := rfl
  · intro h
    have hcount : db.rows.countP (fun r => r.id == id) = 0 := by
      by_contra hne
      have hpos : 0 < db.rows.countP (fun r => r.id == id) := Nat.pos_of_ne_zero hne
      simp [AppState.delete_item, hpos] at h
    have hall := List.countP_eq_zero.mp hcount
    have hfilter : db.rows.filter (fun r => !(r.id == id)) = db.rows := by
      apply List.filter_eq_self.mpr
      intro r hr
      simpa using hall r hr
    calc (AppState.delete_item db id).1
        = ⟨db.rows.filter (fun r => !(r.id == id)), db.nextId⟩ := rfl
      _ = ⟨db.rows, db.nextId⟩ := by rw [hfilter]
      _ = db := rfl

/-- C10 witness: updating or deleting the absent id 7 reports not-found and
leaves the one-row store exactly as it was. -/
theorem notfound_write_no_effect_witness :
    (AppState.update_item ⟨[⟨1, "pen", "blue"⟩], 2⟩ 7 "x" "y").1 =
      (⟨[⟨1, "pen", "blue"⟩], 2⟩ : Db) ∧
    (AppState.delete_item ⟨[⟨1, "pen", "blue"⟩], 2⟩ 7).1 =
      (⟨[⟨1, "pen", "blue"⟩], 2⟩ : Db) :=
  ⟨(notfound_write_no_effect ⟨[⟨1, "pen", "blue"⟩], 2⟩ 7 "x" "y").1 (by decide),
   (notfound_write_no_effect ⟨[⟨1, "pen", "blue"⟩], 2⟩ 7 "x" "y").2 (by decide)⟩

/-- C2 counterexample: on the get-by-id route a database error is
`.unwrap()`ed — the handler panics and produces no response, in particular
not a 500. -/
theorem get_item_db_error_panics :
    get_item_handler (Except.error DbError.err) = HandlerResult.panicked ∧
    (get_item_handler (Except.error DbError.err)).status ≠ some 500 :=
  ⟨rfl, by decide⟩

/-- C2 amended: a database failure yields a 500 response on the
update-by-id, delete-by-id and delete-all routes, while on the get-by-id
route it panics the handling task (as on create/list). -/
theorem db_error_to_500_except_get (e : DbError) :
    update_item_handler (Except.error e) = HandlerResult.response 500 none ∧
    delete_item_handler (Except.error e) = HandlerResult.response 500 none ∧
    delete_all_items_handler (Except.error e) = HandlerResult.response 500 none ∧
    get_item_handler (Except.error e) = HandlerResult.panicked :=
  ⟨rfl, rfl, rfl, rfl⟩

/-- C3 counterexample: delete-all on the empty store responds 200 with body
`{"deleted_count":0}` — the single field is named `deleted_count` (serde uses
the literal Rust field name), not `deletedCount`. -/
theorem delete_all_body_key_not_camel :
    delete_all_items_handler (Except.ok (AppState.delete_all_items Db.empty).2) =
      HandlerResult.response 200 (some (Json.obj [("deleted_count", Json.num 0)])) ∧
    "deleted_count" ≠ "deletedCount" :=
  ⟨rfl, by decide⟩

/-- C3 amended: for every store, the delete-all handler on the successful
count responds 200 with a JSON object whose single field `deleted_count`
carries the removed-row count. -/
theorem delete_all_response_shape (db : Db) :
    delete_all_items_handler (Except.ok (AppState.delete_all_items db).2) =
      HandlerResult.response 200
        (some (Json.obj [("deleted_count", Json.num db.rows.length)])) :=
  rfl

end ItemsApi
